import Mathlib

/-!
Verification development for the hango lunch-ordering system.

The definitions below are a shallow embedding of the order-eligibility and
no-show/blocking policy engine of the repository: `apps/orders/models.py`,
`apps/orders/services/scheduling.py`, `apps/orders/services/no_show.py`,
`apps/orders/views.py`, `apps/orders/forms.py` and `apps/accounts/models.py`.
Database rows become Lean structures, querysets become lists, statuses stay
the strings the code compares against, and calendar dates are integers
counting days since 1970-01-01 together with a Gregorian civil-date
conversion, so that weekday and month/day tests mirror Python `date`.
-/

namespace Hango

/- ──────────────────────────────────────────────────────────────────────
   Gregorian dates: days-since-epoch with civil conversion.
   Python `date` semantics: `weekday()` has Monday = 0 … Sunday = 6;
   1970-01-01 (day 0) is a Thursday, hence weekday 3.
   ────────────────────────────────────────────────────────────────── -/

/-- Civil (year, month, day) from a count of days since 1970-01-01,
using the standard Gregorian era decomposition. -/
def civilFromDays (z0 : Int) : Int × Nat × Nat :=
  let z : Int := z0 + 719468
  let era : Int := (if 0 ≤ z then z else z - 146096) / 146097
  let doe : Nat := (z - era * 146097).toNat
  let yoe : Nat := (doe - doe / 1460 + doe / 36524 - doe / 146096) / 365
  let y : Int := (yoe : Int) + era * 400
  let doy : Nat := doe - (365 * yoe + yoe / 4 - yoe / 100)
  let mp : Nat := (5 * doy + 2) / 153
  let d : Nat := doy - (153 * mp + 2) / 5 + 1
  let m : Nat := if mp < 10 then mp + 3 else mp - 9
  (if m ≤ 2 then y + 1 else y, m, d)

/-- Month (1..12) of an epoch-day date, as Python `date.month`. -/
def monthOf (z : Int) : Nat := (civilFromDays z).2.1

/-- Day of month (1..31) of an epoch-day date, as Python `date.day`. -/
def dayOf (z : Int) : Nat := (civilFromDays z).2.2

/-- Python `date.weekday()`: Monday = 0 … Sunday = 6. -/
def weekday (z : Int) : Nat := ((z + 3) % 7).toNat

/- ──────────────────────────────────────────────────────────────────────
   EAN-13 pickup tokens (`apps/orders/models.py` and `views.py`).
   A digit string is a `List Nat` whose entries are < 10.
   ────────────────────────────────────────────────────────────────── -/

/-- All entries of the list are decimal digits. -/
def isDigitList (ds : List Nat) : Bool := ds.all (· < 10)

/-- Embeds `_ean13_check_digit` (models.py lines 8-17): weight 1 on odd
1-indexed positions, 3 on even positions, check digit
`(10 - sum mod 10) mod 10`. -/
def _ean13_check_digit (d12 : List Nat) : Nat :=
  let s := d12.enum.foldl
    (fun acc p => acc + (if (p.1 + 1) % 2 == 0 then 3 * p.2 else p.2)) 0
  (10 - s % 10) % 10

/-- Embeds `_generate_ean13` (models.py lines 20-23): the 12 random digits
are the explicit input, the check digit is appended. -/
def _generate_ean13 (d12 : List Nat) : List Nat :=
  d12 ++ [_ean13_check_digit d12]

/-- Embeds `_ean13_is_valid` (views.py lines 640-643): non-empty, exactly 13
characters, all digits, and the last digit equals the check digit of the
first 12. -/
def _ean13_is_valid (code : List Nat) : Bool :=
  if code.isEmpty || code.length != 13 || !isDigitList code then false
  else _ean13_check_digit (code.take 12) == code.getLastD 0

/- ──────────────────────────────────────────────────────────────────────
   Data model: students, classes, orders, audit events.
   ────────────────────────────────────────────────────────────────── -/

/-- A class/turma as far as the scheduling core reads it:
`StudentClass.days_mask` (Mon = bit 0 … Sun = bit 6) plus the dates of its
extra lunch days. -/
structure StudentClassE where
  days_mask : Nat
  extra_days : List Int
deriving Repr, DecidableEq

/-- Embeds the fields of `accounts.User` that the policy engine reads and
writes, together with the user's class memberships
(`StudentClass.members` reverse relation `student_classes`). -/
structure User where
  id : Nat
  is_staff : Bool
  is_superuser : Bool
  is_blocked : Bool
  block_source : String
  blocked_reason : String
  blocked_at : Option Nat
  blocked_by : Option Nat
  no_show_streak : Nat
  last_no_show_at : Option Int
  last_pickup_at : Option Int
  lunch_days_override_enabled : Bool
  lunch_days_override_mask : Nat
  student_classes : List StudentClassE
deriving Repr, DecidableEq

/-- Embeds `accounts.BlockEvent`: append-only audit record. -/
structure BlockEvent where
  user : Nat
  action : String
  source : String
  by_user : Option Nat
  reason : String
deriving Repr, DecidableEq

/-- Embeds `orders.Order`. Statuses are kept as the strings the source
compares against (`status` takes values "pending", "picked_up", "no_show",
"canceled"; `delivery_status` takes "pending", "delivered",
"undelivered"). -/
structure Order where
  id : Nat
  user : Nat
  status : String
  delivery_status : String
  service_day : Int
  delivered_at : Option Nat
  delivered_by : Option Nat
  pickup_token : Option (List Nat)
deriving Repr, DecidableEq

/-- Embeds `orders.OrderItem` (an order line). -/
structure OrderItem where
  order : Nat
  item : Option Nat
  qty : Nat
deriving Repr, DecidableEq

/-- Embeds `menu.Item` as read by checkout: its id and (optional)
category id. `none` means the item has no category configured. -/
structure Item where
  id : Nat
  category : Option Nat
deriving Repr, DecidableEq

/- ──────────────────────────────────────────────────────────────────────
   Blocking API (`accounts/models.py`, `User.block` / `User.unblock`).
   State threading: every mutating operation takes and returns the audit
   event list, which the source only ever appends to.
   ────────────────────────────────────────────────────────────────── -/

/-- Embeds `get_auto_block_threshold` (models.py lines 26-34):
`settings.HANGO_AUTO_BLOCK_THRESHOLD` is not set in `hango/settings.py`,
so the default 3 applies. -/
def get_auto_block_threshold : Nat := 3

/-- The auto-block reason string `f"{threshold} faltas consecutivas"`. -/
def autoBlockReason (threshold : Nat) : String :=
  toString threshold ++ " faltas consecutivas"

/-- Embeds `User.block` (accounts/models.py lines 147-181): sets the block
flag and metadata (reason truncated to 200 characters, actor kept only when
it is staff) and appends exactly one `BlockEvent(action="block")`. -/
def User.block (u : User) (events : List BlockEvent) (source : String)
    (actor : Option User) (reason : String) (now : Nat) :
    User × List BlockEvent :=
  let by_id : Option Nat :=
    match actor with
    | some b => if b.is_staff then some b.id else none
    | none => none
  let u' := { u with
    is_blocked := true
    block_source := source
    blocked_reason := reason.take 200
    blocked_at := some now
    blocked_by := by_id }
  (u', events ++ [⟨u.id, "block", source, by_id, reason.take 200⟩])

/-- Embeds `User.unblock` (accounts/models.py lines 184-217): rejected with
a permission error unless the actor is staff; otherwise clears the block
flag, source and timestamp, stores the supplied reason (truncated to 200
characters), points `blocked_by` at the unblocking actor, resets the
no-show streak to zero and appends one `BlockEvent(action="unblock")`. -/
def User.unblock (u : User) (events : List BlockEvent) (actor : User)
    (reason : String) : Except String (User × List BlockEvent) :=
  if !actor.is_staff then
    .error "PermissionDenied: apenas staff pode desbloquear"
  else
    let u' := { u with
      is_blocked := false
      block_source := ""
      blocked_reason := reason.take 200
      blocked_at := none
      blocked_by := some actor.id
      no_show_streak := 0 }
    .ok (u', events ++ [⟨u.id, "unblock", "manual", some actor.id, reason.take 200⟩])

/- ──────────────────────────────────────────────────────────────────────
   Order status transitions (`orders/models.py`,
   `Order.mark_picked_up` / `Order.mark_no_show`).
   ────────────────────────────────────────────────────────────────── -/

/-- Embeds `Order.mark_picked_up` (models.py lines 150-169). Early return
when already picked up; otherwise set delivery fields (`delivered_by` only
for staff actors) and, when `save_user`, reset the user's streak and record
the pickup date unless both are already in that state. -/
def Order.mark_picked_up (o : Order) (u : User) (actor : Option User)
    (now : Nat) (today : Int) (save_user : Bool) : Order × User :=
  if o.status = "picked_up" then (o, u)
  else
    let o' := { o with
      status := "picked_up"
      delivery_status := "delivered"
      delivered_at := some now
      delivered_by :=
        match actor with
        | some b => if b.is_staff then some b.id else o.delivered_by
        | none => o.delivered_by }
    let u' :=
      if save_user then
        if u.no_show_streak ≠ 0 ∨ u.last_pickup_at = none then
          { u with no_show_streak := 0, last_pickup_at := some today }
        else u
      else u
    (o', u')

/-- Embeds `Order.mark_no_show` (models.py lines 171-207). Early return when
already no_show; otherwise mark the order, increment and persist the user's
streak first, then auto-block (source "auto", no actor, reason
`autoBlockReason`) when the updated streak reaches the threshold and the
user is not already blocked. `thresholdOpt = none` falls back to
`get_auto_block_threshold`. -/
def Order.mark_no_show (o : Order) (u : User) (events : List BlockEvent)
    (thresholdOpt : Option Nat) (save_user : Bool) (now : Nat) (today : Int) :
    Order × User × List BlockEvent :=
  if o.status = "no_show" then (o, u, events)
  else
    let o' := { o with status := "no_show", delivery_status := "undelivered" }
    if !save_user then (o', u, events)
    else
      let u1 := { u with
        no_show_streak := u.no_show_streak + 1
        last_no_show_at := some today }
      let t :=
        match thresholdOpt with
        | some t => t
        | none => get_auto_block_threshold
      if u1.no_show_streak ≥ t ∧ ¬u1.is_blocked then
        let r := u1.block events "auto" none (autoBlockReason t) now
        (o', r.1, r.2)
      else (o', u1, events)

/- ──────────────────────────────────────────────────────────────────────
   Service layer (`orders/services/no_show.py`).
   ────────────────────────────────────────────────────────────────── -/

/-- Embeds `AUTO_BLOCK_THRESHOLD_DEFAULT` (no_show.py line 13):
`settings.HANGO_AUTO_BLOCK_THRESHOLD` is absent, so 3. -/
def AUTO_BLOCK_THRESHOLD_DEFAULT : Nat := 3

/-- Embeds the `MarkResult` dataclass (no_show.py lines 16-24). -/
structure MarkResult where
  order_id : Nat
  user_id : Nat
  prev_status : String
  new_status : String
  no_show_streak : Nat
  blocked : Bool
  block_source : String
deriving Repr, DecidableEq

namespace Services

/-- Embeds services `mark_picked_up` (no_show.py lines 56-72): delegates to
`Order.mark_picked_up` and reports the resulting state. -/
def mark_picked_up (o : Order) (u : User) (actor : Option User)
    (now : Nat) (today : Int) : Order × User × MarkResult :=
  let prev := o.status
  let r := Order.mark_picked_up o u actor now today true
  (r.1, r.2, ⟨r.1.id, r.2.id, prev, r.1.status, r.2.no_show_streak,
    r.2.is_blocked, r.2.block_source⟩)

/-- Embeds services `mark_no_show` (no_show.py lines 75-110): the order
fields are only written when the order is not already `no_show`, but the
streak increment and the threshold evaluation run unconditionally. -/
def mark_no_show (o : Order) (u : User) (events : List BlockEvent)
    (thresholdOpt : Option Nat) (now : Nat) (today : Int) :
    Order × User × List BlockEvent × MarkResult :=
  let threshold :=
    match thresholdOpt with
    | none => AUTO_BLOCK_THRESHOLD_DEFAULT
    | some t => t
  let prev := o.status
  let o' :=
    if o.status ≠ "no_show" then
      { o with status := "no_show", delivery_status := "undelivered" }
    else o
  let u1 := { u with
    no_show_streak := u.no_show_streak + 1
    last_no_show_at := some today }
  let r :=
    if u1.no_show_streak ≥ threshold ∧ ¬u1.is_blocked then
      u1.block events "auto" none (autoBlockReason threshold) now
    else (u1, events)
  (o', r.1, r.2, ⟨o.id, u.id, prev, o'.status, r.1.no_show_streak,
    r.1.is_blocked, r.1.block_source⟩)

end Services

/-- The loop body of `recalculate_no_show_streak` (no_show.py lines 44-49)
over the status column, ordered by descending service day: statuses
"no_show"/"undelivered" count, "delivered" stops the walk, everything else
(in particular "picked_up") is skipped. -/
def recalcLoop : List String → Nat → Nat
  | [], streak => streak
  | s :: rest, streak =>
    if s = "no_show" ∨ s = "undelivered" then recalcLoop rest (streak + 1)
    else if s = "delivered" then streak
    else recalcLoop rest streak

/-- Embeds `recalculate_no_show_streak` (no_show.py lines 31-53): the
queryset keeps the user's orders with `service_day ≤ today`, excludes
status "canceled", sorts by descending `service_day`, and feeds the status
column to the walk. Returns the recomputed streak. -/
def recalculate_no_show_streak (orders : List Order) (userId : Nat)
    (today : Int) : Nat :=
  let qs := (orders.filter
      (fun o => o.user == userId && o.service_day ≤ today
        && o.status != "canceled")).insertionSort
    (fun a b => b.service_day ≤ a.service_day)
  recalcLoop (qs.map (·.status)) 0

/- ──────────────────────────────────────────────────────────────────────
   Daily limit and the persisted uniqueness constraint
   (`orders/services/scheduling.py` lines 320-336, `orders/models.py`
   `Order.Meta.constraints`).
   ────────────────────────────────────────────────────────────────── -/

/-- Embeds `ensure_student_daily_limit` (scheduling.py lines 320-336): the
filter is `user = user AND service_day = service_day` with no status
exclusion. -/
def ensure_student_daily_limit (orders : List Order) (userId : Nat)
    (service_day : Int) : Except String Unit :=
  if orders.any (fun o => o.user == userId && o.service_day == service_day) then
    .error "Voce ja possui um pedido para esse dia."
  else .ok ()

/-- Embeds the `one_order_per_student_per_service_day` unique constraint
(models.py lines 112-117): it covers `(user, service_day)` with no
condition, so it holds of a row iff another row matches on both fields
regardless of status. -/
def uniqueConstraintViolated (orders : List Order) (userId : Nat)
    (service_day : Int) : Bool :=
  orders.any (fun o => o.user == userId && o.service_day == service_day)

/- ──────────────────────────────────────────────────────────────────────
   Pickup token allocation (`orders/models.py`,
   `Order.ensure_pickup_token` / `Order.save`).
   ────────────────────────────────────────────────────────────────── -/

/-- The retry loop of `ensure_pickup_token` (models.py lines 133-137): the
randomness of `_generate_ean13` is made explicit as a stream of 12-digit
draws, one consumed per iteration; a candidate colliding with an existing
token is retried, fuel 0 means the attempts are exhausted. -/
def tokenAllocLoop (existingTokens : List (List Nat)) :
    List (List Nat) → Nat → Option (List Nat)
  | _, 0 => none
  | [], _ + 1 => none
  | d12 :: rest, n + 1 =>
    let candidate := _generate_ean13 d12
    if existingTokens.contains candidate then tokenAllocLoop existingTokens rest n
    else some candidate

/-- Embeds `Order.ensure_pickup_token` (models.py lines 125-139): an order
that already has a token keeps it (unless `force`); otherwise up to 8
candidates are drawn and the first non-colliding one is assigned;
exhaustion raises `RuntimeError`. -/
def ensure_pickup_token (o : Order) (existingTokens : List (List Nat))
    (rand : List (List Nat)) (force : Bool) : Except String Order :=
  if o.pickup_token.isSome && !force then .ok o
  else
    match tokenAllocLoop existingTokens rand 8 with
    | some candidate => .ok { o with pickup_token := some candidate }
    | none => .error "RuntimeError: falha ao alocar pickup_token"

/- ──────────────────────────────────────────────────────────────────────
   Eligibility / scheduling (`orders/services/scheduling.py`).
   ────────────────────────────────────────────────────────────────── -/

/-- Embeds `_weekday_bit` (scheduling.py lines 21-23): `1 <<< weekday`. -/
def _weekday_bit (d : Int) : Nat := 1 <<< weekday d

/-- Embeds `_default_mask` (scheduling.py lines 181-182):
`settings.DEFAULT_LUNCH_DAYS_MASK = 0b11111` (Mon-Fri). -/
def _default_mask : Nat := 31

/-- Embeds `_mask_from_related_any` (scheduling.py lines 115-178), the
reflection fallback that scans every relation of the user for the first
object exposing a `_candidate_mask_attrs` attribute, over the modelled
relation graph (`users` is the stored user table). Django's
`Options._get_fields` lists reverse relations before the model's own
forward fields and M2Ms, so the scan visits in order: the reverse self-FK
`blocks_made` (the users `v` with `v.blocked_by = u.id`; on a `User` row
the first candidate attribute hit is `lunch_days_override_mask`, read
regardless of the enable flag, and a to-many relation OR-combines them),
the reverse M2M `student_classes` (necessarily empty when this fallback
runs, a non-empty membership having already resolved in the
`LUNCH_CLASS_REL` step), the other reverse relations (orders, delivered
orders, block events — none of their rows carries a candidate attribute or
boolean weekday fields, so they never yield a mask), then the forward FK
`blocked_by` (that user's `lunch_days_override_mask`), then the mask-less
`groups`/`user_permissions` M2Ms. `blocked_by` pointing outside the table
cannot happen under FK integrity; it is mapped to no mask. -/
def _mask_from_related_any (users : List User) (u : User) : Option Nat :=
  let blocks_made := users.filter (fun v => v.blocked_by == some u.id)
  if !blocks_made.isEmpty then
    some (blocks_made.foldl (fun acc v => acc ||| v.lunch_days_override_mask) 0)
  else
    match u.blocked_by with
    | some bid =>
      match users.find? (fun v => v.id == bid) with
      | some b => some b.lunch_days_override_mask
      | none => none
    | none => none

/-- Embeds `_user_lunch_mask` (scheduling.py lines 185-254) under the
deployed settings: (1) the per-user override mask when the override flag
is enabled; (2) the `LUNCH_CLASS_REL = "student_classes"` relation — the
OR of `days_mask` over the user's classes — which finds a mask exactly
when the membership list is non-empty, since every `StudentClass` carries
a `days_mask`; (3) the explicit relation-name fallbacks, of which only
`student_classes` exists on the model, adding nothing new; (4) the
reflection scan `_mask_from_related_any`; (5) the global default. -/
def _user_lunch_mask (users : List User) (u : User) : Nat :=
  if u.lunch_days_override_enabled then u.lunch_days_override_mask
  else if !u.student_classes.isEmpty then
    u.student_classes.foldl (fun acc c => acc ||| c.days_mask) 0
  else
    match _mask_from_related_any users u with
    | some m => m
    | none => _default_mask

/-- Modelled from the spec: the `ExtraLunchDay` model is imported by
scheduling.py but its definition is absent from the sources; per spec §4.2
an extra lunch day is a temporary service date granted to a class, so the
query `ExtraLunchDay.objects.filter(student_class__in=user.student_classes,
date=dia).exists()` becomes membership of `dia` in the extra days of one of
the user's classes. -/
def hasExtraLunchDay (u : User) (dia : Int) : Bool :=
  u.student_classes.any (fun c => c.extra_days.contains dia)

/-- Embeds `is_lunch_day_for_user` (scheduling.py lines 261-279): an extra
lunch day for one of the user's classes short-circuits the check, otherwise
the date's weekday bit must be set in the resolved mask. -/
def is_lunch_day_for_user (users : List User) (u : User) (dia : Int) : Bool :=
  if hasExtraLunchDay u dia then true
  else (_user_lunch_mask users u) &&& (_weekday_bit dia) != 0

/-- Embeds a `calendar.DiaSemAtendimento` row: a closure date and its
annually-recurring flag. -/
structure Closure where
  data : Int
  repete_anualmente : Bool
deriving Repr, DecidableEq

/-- Embeds `is_closed` (scheduling.py lines 281-288): an exact-date match
closes the day, else an annually-recurring closure matching on month and
day of month does. -/
def is_closed (closures : List Closure) (dia : Int) : Bool :=
  if closures.any (fun c => c.data == dia) then true
  else closures.any (fun c =>
    c.repete_anualmente && monthOf c.data == monthOf dia
      && dayOf c.data == dayOf dia)

/-- Default cutoff time of `OrderCutoffSetting.get_cutoff_time`
(calendar/models.py): 15:00, expressed in microseconds of the day, the
granularity Python `time` compares at. -/
def defaultCutoffTime : Nat := 15 * 3600 * 1000000

/-- The scan loop of `next_eligible_service_day` (scheduling.py lines
309-312), fuel first: return the current day when it is a lunch day for
the user and not closed, else move to the next day. -/
def scanEligible (users : List User) (u : User) (closures : List Closure) :
    Nat → Int → Option Int
  | 0, _ => none
  | n + 1, dia =>
    if is_lunch_day_for_user users u dia && !is_closed closures dia then some dia
    else scanEligible users u closures n (dia + 1)

/-- Embeds `next_eligible_service_day` (scheduling.py lines 294-314):
base offset 1 before the cutoff (strict) and 2 at/after it, then a 31-day
bounded scan for an eligible day, falling back to the base day. `nowTime`
is the local time of day in microseconds; `cutoff` is the configured
cutoff time. -/
def next_eligible_service_day (users : List User) (u : User)
    (closures : List Closure) (cutoff : Nat) (today : Int) (nowTime : Nat) :
    Int :=
  let base_days : Int := if nowTime < cutoff then 1 else 2
  let dia := today + base_days
  match scanEligible users u closures 31 dia with
  | some d => d
  | none => today + base_days

/- ──────────────────────────────────────────────────────────────────────
   Checkout (`orders/views.py` lines 32-45 and 254-340) and the unused
   `CheckoutForm.clean` (`orders/forms.py` lines 17-38).
   ────────────────────────────────────────────────────────────────── -/

/-- Embeds `_orders_paused_today` (views.py lines 32-45): placement is
refused on Saturday (5) and Sunday (6) local time, with a staff bypass.
The checkout view is login-protected, so the user is always present. -/
def _orders_paused_today (u : User) (todayWeekday : Nat) : Bool :=
  if todayWeekday = 5 ∨ todayWeekday = 6 then
    if u.is_staff then false else true
  else false

/-- Embeds `CheckoutForm.clean` (forms.py lines 25-38): rejects operators
(staff or superuser) and blocked students. This form is defined in the
repository but never instantiated by any view. -/
def checkoutFormClean (u : User) : Except String Unit :=
  if u.is_staff || u.is_superuser then
    .error "Operadores nao podem realizar pedidos."
  else if u.is_blocked then
    .error "Seu usuario esta bloqueado para fazer pedidos."
  else .ok ()

/-- A session cart line after `_cart_lines` (views.py lines 81-122): an
item key (already numeric) and a positive quantity. -/
structure CartLine where
  key : Nat
  qty : Nat
deriving Repr, DecidableEq

/-- The stored state the checkout view reads and writes. -/
structure Db where
  orders : List Order
  order_items : List OrderItem
  items : List Item
deriving Repr, DecidableEq

/-- Outcome of a checkout POST, one constructor per exit of the view. -/
inductive CheckoutOutcome where
  | pausedWeekend
  | emptyCart
  | qtyExceedsOne
  | uncategorizedItem (itemId : Nat)
  | categoryConflict
  | duplicateOrder
  | tokenAllocationFailed
  | created (orderId : Nat)
deriving Repr, DecidableEq

/-- Quantity the cart assigns to an item id (`id_map` in the view; cart
keys are unique, so the first match is the line). -/
def qtyOf (lines : List CartLine) (itemId : Nat) : Nat :=
  match lines.find? (fun l => l.key == itemId) with
  | some l => l.qty
  | none => 0

/-- Embeds the POST branch of `checkout` (views.py lines 254-340) run at
`today`/`nowTime` local time: weekend gate, empty-cart check, per-line
quantity cap, uncategorized-item and one-per-category validation over the
items found in the database, service-day computation, daily-limit
pre-check, then creation of the order (token allocated from the random
stream `rand`, status "pending") and its lines (quantity capped at 1,
item reference kept only when the item row exists). `users` is the stored
user table read by mask resolution. Returns the outcome and the state
after. -/
def checkout (db : Db) (users : List User) (u : User)
    (closures : List Closure) (cutoff : Nat)
    (today : Int) (nowTime : Nat) (lines : List CartLine)
    (rand : List (List Nat)) (newOrderId : Nat) : CheckoutOutcome × Db :=
  if _orders_paused_today u (weekday today) then (.pausedWeekend, db)
  else if lines.isEmpty then (.emptyCart, db)
  else if lines.any (fun l => l.qty > 1) then (.qtyExceedsOne, db)
  else
    let lineIds := lines.map (·.key)
    let matched := db.items.filter (fun it => lineIds.contains it.id)
    match matched.find? (fun it => it.category.isNone) with
    | some it => (.uncategorizedItem it.id, db)
    | none =>
      let catTotal : Nat → Nat := fun c =>
        (matched.filter (fun it => it.category == some c)).foldl
          (fun acc it => acc + qtyOf lines it.id) 0
      if (matched.filterMap (·.category)).any (fun c => catTotal c > 1) then
        (.categoryConflict, db)
      else
        let service_day :=
          next_eligible_service_day users u closures cutoff today nowTime
        match ensure_student_daily_limit db.orders u.id service_day with
        | .error _ => (.duplicateOrder, db)
        | .ok _ =>
          let base : Order := ⟨newOrderId, u.id, "pending", "pending",
            service_day, none, none, none⟩
          match ensure_pickup_token base (db.orders.filterMap (·.pickup_token))
              rand false with
          | .error _ => (.tokenAllocationFailed, db)
          | .ok o =>
            let newItems := lines.map (fun l =>
              ({ order := newOrderId
                 item := if db.items.any (fun it => it.id == l.key)
                   then some l.key else none
                 qty := min l.qty 1 } : OrderItem))
            (.created newOrderId,
              { db with orders := db.orders ++ [o]
                        order_items := db.order_items ++ newItems })

/- ──────────────────────────────────────────────────────────────────────
   Theorems.
   ────────────────────────────────────────────────────────────────── -/

/-- The check digit is always a decimal digit. -/
lemma ean13_check_digit_lt_ten (d12 : List Nat) : _ean13_check_digit d12 < 10 := by
  unfold _ean13_check_digit
  exact Nat.mod_lt _ (by norm_num)

/-- C7: every token produced by the generator (12 digits plus the weighted
check digit) passes validation, and validation accepts a code iff it is
exactly 13 decimal digits whose last digit equals the check digit of its
first 12 computed by the same rule. -/
theorem C7_token_checksum_roundtrip :
    (∀ d12 : List Nat, d12.length = 12 → isDigitList d12 = true →
      _ean13_is_valid (_generate_ean13 d12) = true)
    ∧ (∀ code : List Nat, _ean13_is_valid code = true ↔
      (code.length = 13 ∧ isDigitList code = true
        ∧ code.getLastD 0 = _ean13_check_digit (code.take 12))) := by
  constructor
  · intro d12 hlen hdig
    have hck := ean13_check_digit_lt_ten d12
    unfold _ean13_is_valid _generate_ean13
    have hne : d12 ++ [_ean13_check_digit d12] ≠ [] := by simp
    have h13 : (d12 ++ [_ean13_check_digit d12]).length = 13 := by simp [hlen]
    have hdig' : isDigitList (d12 ++ [_ean13_check_digit d12]) = true := by
      unfold isDigitList at hdig ⊢
      simp_all
    have htake : (d12 ++ [_ean13_check_digit d12]).take 12 = d12 := by
      rw [← hlen]
      exact List.take_left d12 _
    have hlast : (d12 ++ [_ean13_check_digit d12]).getLastD 0
        = _ean13_check_digit d12 := by
      simp
    simp [h13, hdig', htake, hlast]
  · intro code
    unfold _ean13_is_valid
    constructor
    · intro h
      by_cases hc : (code.isEmpty || code.length != 13 || !isDigitList code) = true
      · simp [hc] at h
      · simp only [Bool.or_eq_true, not_or] at hc
        obtain ⟨⟨-, h2⟩, h3⟩ := hc
        have hlen : code.length = 13 := by
          by_contra hx
          exact h2 (by simpa [bne_iff_ne] using hx)
        have hdig : isDigitList code = true := by
          cases hd : isDigitList code
          · exact absurd (by simp [hd]) h3
          · rfl
        refine ⟨hlen, hdig, ?_⟩
        rw [if_neg (by simp_all)] at h
        exact (beq_iff_eq.mp h).symm
    · rintro ⟨hlen, hdig, hlast⟩
      have hcond : (code.isEmpty || code.length != 13 || !isDigitList code) = false := by
        have : code ≠ [] := by
          intro h
          rw [h] at hlen
          simp at hlen
        simp [hlen, hdig, List.isEmpty_iff, this]
      rw [if_neg (by simp [hcond])]
      exact beq_iff_eq.mpr hlast.symm

/-- C7 witness: a concrete 12-digit draw generates a token that validates. -/
theorem C7_token_checksum_roundtrip_witness :
    _ean13_is_valid (_generate_ean13 [1, 2, 3, 4, 5, 6, 7, 8, 9, 0, 1, 2]) = true :=
  C7_token_checksum_roundtrip.1 [1, 2, 3, 4, 5, 6, 7, 8, 9, 0, 1, 2]
    (by decide) (by decide)

/-- C1: the claim that the no-show transition is idempotent fails in the
service layer. The model-level `Order.mark_no_show` and
`Order.mark_picked_up` are no-ops on orders already in their terminal
state (first two conjuncts, consistent with the claim), but the
service-level `Services.mark_no_show` applied to an order already in
status `no_show` increments the owning student's streak from 1 to 2
(third conjunct), double-counting the streak effect the claim rules
out. -/
theorem C1_service_no_show_double_counts_streak :
    Order.mark_no_show ⟨1, 0, "no_show", "undelivered", 1, none, none, none⟩
      ⟨0, false, false, false, "", "", none, none, 1, none, none, false, 0, []⟩
      [] none true 0 0
      = (⟨1, 0, "no_show", "undelivered", 1, none, none, none⟩,
        ⟨0, false, false, false, "", "", none, none, 1, none, none, false, 0, []⟩, [])
    ∧ Order.mark_picked_up ⟨2, 0, "picked_up", "delivered", 1, some 5, some 9, none⟩
      ⟨0, false, false, false, "", "", none, none, 0, none, some 1, false, 0, []⟩
      none 0 0 true
      = (⟨2, 0, "picked_up", "delivered", 1, some 5, some 9, none⟩,
        ⟨0, false, false, false, "", "", none, none, 0, none, some 1, false, 0, []⟩)
    ∧ (Services.mark_no_show ⟨1, 0, "no_show", "undelivered", 1, none, none, none⟩
        ⟨0, false, false, false, "", "", none, none, 1, none, none, false, 0, []⟩
        [] none 0 0).2.1.no_show_streak = 2 := by
  refine ⟨?_, ?_, ?_⟩ <;> rfl

/-- C2: the claim that canceled orders are excluded from the
one-order-per-day rule fails. A student whose only order for the day has
status "canceled" is still rejected: `ensure_student_daily_limit` raises
the duplicate error (its filter has no status exclusion), the persisted
unique constraint matches regardless of status, and the full checkout
pipeline returns the duplicate-order outcome. -/
theorem C2_canceled_orders_still_block_the_day :
    (⟨1, 0, "canceled", "pending", 5, none, none, none⟩ : Order).status = "canceled"
    ∧ ensure_student_daily_limit [⟨1, 0, "canceled", "pending", 5, none, none, none⟩] 0 5
      = .error "Voce ja possui um pedido para esse dia."
    ∧ uniqueConstraintViolated [⟨1, 0, "canceled", "pending", 5, none, none, none⟩] 0 5 = true
    ∧ (checkout ⟨[⟨1, 0, "canceled", "pending", 5, none, none, none⟩], [], [⟨1, some 0⟩]⟩ []
        ⟨0, false, false, false, "", "", none, none, 0, none, none, false, 0, []⟩
        [] defaultCutoffTime 4 0 [⟨1, 1⟩] [List.replicate 12 0] 2).1
      = .duplicateOrder := by
  refine ⟨?_, ?_, ?_, ?_⟩ <;> rfl

/-- C6: the claim that streak recomputation stops at the first delivered
(picked-up) order fails. The loop breaks only on status "delivered", a
value `status` never takes (delivered orders get status "picked_up"), so
a student whose most recent non-canceled order was picked up does not
recompute to 0: with history (day 1 no_show, day 2 picked_up) the code
yields 1, and with (no_show, picked_up, no_show, picked_up) it counts
every historical no-show and yields 2. -/
theorem C6_recalculation_never_stops_at_pickup :
    recalculate_no_show_streak
      [⟨1, 0, "no_show", "undelivered", 1, none, none, none⟩,
       ⟨2, 0, "picked_up", "delivered", 2, none, none, none⟩] 0 5 = 1
    ∧ recalculate_no_show_streak
      [⟨1, 0, "no_show", "undelivered", 1, none, none, none⟩,
       ⟨2, 0, "picked_up", "delivered", 2, none, none, none⟩,
       ⟨3, 0, "no_show", "undelivered", 3, none, none, none⟩,
       ⟨4, 0, "picked_up", "delivered", 4, none, none, none⟩] 0 5 = 2 := by
  exact ⟨rfl, rfl⟩

/-- C3: the claim that checkout rejects blocked students and operators
before any persistence fails. The rejection logic exists only in
`CheckoutForm.clean`, which no view ever instantiates: the checkout view
itself runs no blocked/staff check, so a blocked student's valid weekday
checkout returns the created outcome and persists an Order (conjuncts
2-4), and a staff user's checkout does the same (conjuncts 6-7), even
though the dead form code would have rejected both (conjuncts 1 and 5). -/
theorem C3_checkout_ignores_blocked_and_operator :
    checkoutFormClean ⟨0, false, false, true, "auto", "r", some 0, none, 3,
        none, none, false, 0, []⟩
      = .error "Seu usuario esta bloqueado para fazer pedidos."
    ∧ (⟨0, false, false, true, "auto", "r", some 0, none, 3,
        none, none, false, 0, []⟩ : User).is_blocked = true
    ∧ (checkout ⟨[], [], [⟨1, some 0⟩]⟩ []
        ⟨0, false, false, true, "auto", "r", some 0, none, 3,
          none, none, false, 0, []⟩
        [] defaultCutoffTime 4 0 [⟨1, 1⟩] [List.replicate 12 0] 1).1
      = .created 1
    ∧ (checkout ⟨[], [], [⟨1, some 0⟩]⟩ []
        ⟨0, false, false, true, "auto", "r", some 0, none, 3,
          none, none, false, 0, []⟩
        [] defaultCutoffTime 4 0 [⟨1, 1⟩] [List.replicate 12 0] 1).2.orders
      = [⟨1, 0, "pending", "pending", 5, none, none,
          some (List.replicate 12 0 ++ [0])⟩]
    ∧ checkoutFormClean ⟨7, true, false, false, "", "", none, none, 0,
        none, none, false, 0, []⟩
      = .error "Operadores nao podem realizar pedidos."
    ∧ (checkout ⟨[], [], [⟨1, some 0⟩]⟩ []
        ⟨7, true, false, false, "", "", none, none, 0,
          none, none, false, 0, []⟩
        [] defaultCutoffTime 4 0 [⟨1, 1⟩] [List.replicate 12 0] 1).1
      = .created 1
    ∧ (checkout ⟨[], [], [⟨1, some 0⟩]⟩ []
        ⟨7, true, false, false, "", "", none, none, 0,
          none, none, false, 0, []⟩
        [] defaultCutoffTime 4 0 [⟨1, 1⟩] [List.replicate 12 0] 1).2.orders.length
      = 1 := by
  refine ⟨?_, ?_, ?_, ?_, ?_, ?_, ?_⟩ <;> rfl

/-- C10: the implicit weekend placement gate. Whenever the local placement
day is a Saturday (weekday 5) or Sunday (weekday 6) and the user is not
staff, checkout refuses with the paused outcome and leaves the stored
state untouched, regardless of the cart, the computed service day, or
anything else; and the gate is always off for staff users. -/
theorem C10_weekend_placement_gate (db : Db) (users : List User) (u : User)
    (closures : List Closure) (cutoff : Nat) (today : Int) (nowTime : Nat)
    (lines : List CartLine) (rand : List (List Nat)) (newOrderId : Nat)
    (hw : weekday today = 5 ∨ weekday today = 6)
    (hstaff : u.is_staff = false) :
    checkout db users u closures cutoff today nowTime lines rand newOrderId
      = (.pausedWeekend, db)
    ∧ ∀ (v : User) (w : Nat), v.is_staff = true →
      _orders_paused_today v w = false := by
  constructor
  · have hp : _orders_paused_today u (weekday today) = true := by
      unfold _orders_paused_today
      rw [if_pos hw, hstaff]
      simp
    unfold checkout
    simp [hp]
  · intro v w hv
    unfold _orders_paused_today
    by_cases hw' : w = 5 ∨ w = 6 <;> simp [hw', hv]

/-- C10 witness: epoch day 2 (1970-01-03) is a Saturday; a non-staff user's
checkout on that day is refused and the state is unchanged. -/
theorem C10_weekend_placement_gate_witness :
    checkout ⟨[], [], [⟨1, some 0⟩]⟩ []
      ⟨0, false, false, false, "", "", none, none, 0, none, none, false, 0, []⟩
      [] defaultCutoffTime 2 0 [⟨1, 1⟩] [List.replicate 12 0] 1
      = (.pausedWeekend, ⟨[], [], [⟨1, some 0⟩]⟩) :=
  (C10_weekend_placement_gate ⟨[], [], [⟨1, some 0⟩]⟩ []
    ⟨0, false, false, false, "", "", none, none, 0, none, none, false, 0, []⟩
    [] defaultCutoffTime 2 0 [⟨1, 1⟩] [List.replicate 12 0] 1
    (Or.inl (by decide)) rfl).1

set_option maxRecDepth 8192 in
/-- C8 counterexample: unblock does not clear the stored block reason. A
staff actor unblocking with reason "motivo" leaves
`blocked_reason = "motivo"`, not the empty string the claim requires, and
points `blocked_by` at the unblocking actor. -/
theorem C8_unblock_keeps_supplied_reason :
    User.unblock
      ⟨0, false, false, true, "auto", "old", some 5, none, 3,
        none, none, false, 0, []⟩
      [] ⟨9, true, false, false, "", "", none, none, 0, none, none, false, 0, []⟩
      "motivo"
      = .ok (⟨0, false, false, false, "", "motivo", none, some 9, 0,
          none, none, false, 0, []⟩,
        [⟨0, "unblock", "manual", some 9, "motivo"⟩])
    ∧ ("motivo" : String) ≠ "" := by
  refine ⟨?_, by decide⟩
  rfl

/-- C8 as amended: unblock by a non-staff actor fails with the permission
error (and, the operation returning an error, changes nothing); unblock by
a staff actor clears the block flag, source and timestamp, stores the
supplied reason (truncated to 200 characters, hence empty when no reason is
given), points the actor reference at the unblocking actor, resets the
no-show streak to zero, and appends exactly one
`BlockEvent(action="unblock")` carrying that actor. -/
theorem C8_unblock_permissions_and_fresh_start (u : User)
    (events : List BlockEvent) (actor : User) (reason : String) :
    (actor.is_staff = false →
      User.unblock u events actor reason
        = .error "PermissionDenied: apenas staff pode desbloquear")
    ∧ (actor.is_staff = true →
      User.unblock u events actor reason
        = .ok ({ u with
              is_blocked := false, block_source := "",
              blocked_reason := reason.take 200, blocked_at := none,
              blocked_by := some actor.id, no_show_streak := 0 },
          events ++ [⟨u.id, "unblock", "manual", some actor.id,
            reason.take 200⟩])) := by
  constructor
  · intro hns
    unfold User.unblock
    rw [hns]
    rfl
  · intro hs
    unfold User.unblock
    rw [hs]
    rfl

/-- C8 witness: a non-staff actor is refused; a staff actor unblocking with
the default empty reason yields the fresh-start state with one appended
unblock event. -/
theorem C8_unblock_witness :
    User.unblock
      ⟨0, false, false, true, "manual", "old", some 5, some 9, 4,
        none, none, false, 0, []⟩
      [] ⟨3, false, false, false, "", "", none, none, 0, none, none, false, 0, []⟩
      ""
      = .error "PermissionDenied: apenas staff pode desbloquear"
    ∧ User.unblock
      ⟨0, false, false, true, "manual", "old", some 5, some 9, 4,
        none, none, false, 0, []⟩
      [] ⟨9, true, false, false, "", "", none, none, 0, none, none, false, 0, []⟩
      ""
      = .ok ({ (⟨0, false, false, true, "manual", "old", some 5, some 9, 4,
            none, none, false, 0, []⟩ : User) with
              is_blocked := false, block_source := "",
              blocked_reason := ("" : String).take 200, blocked_at := none,
              blocked_by := some 9, no_show_streak := 0 },
        [] ++ [⟨0, "unblock", "manual", some 9, ("" : String).take 200⟩]) :=
  ⟨(C8_unblock_permissions_and_fresh_start
      ⟨0, false, false, true, "manual", "old", some 5, some 9, 4,
        none, none, false, 0, []⟩
      [] ⟨3, false, false, false, "", "", none, none, 0, none, none, false, 0, []⟩
      "").1 rfl,
   (C8_unblock_permissions_and_fresh_start
      ⟨0, false, false, true, "manual", "old", some 5, some 9, 4,
        none, none, false, 0, []⟩
      [] ⟨9, true, false, false, "", "", none, none, 0, none, none, false, 0, []⟩
      "").2 rfl⟩

/-- C5: marking a not-yet-no-show order as no-show sets the order terminal
fields, increments the student's persisted streak by one, and then — iff
the updated streak reaches the threshold and the student is not already
blocked — blocks the student with source "auto", a null actor and reason
`autoBlockReason T` (stored through the block API, which truncates at 200
characters), appending exactly one block event; otherwise (in particular
whenever the student is already blocked) the user keeps the incremented
streak with all block fields untouched and no event is appended. -/
theorem C5_auto_block_fires_exactly_at_threshold (o : Order) (u : User)
    (events : List BlockEvent) (T now : Nat) (today : Int)
    (h : o.status ≠ "no_show") :
    (Order.mark_no_show o u events (some T) true now today).1
      = { o with status := "no_show", delivery_status := "undelivered" }
    ∧ (Order.mark_no_show o u events (some T) true now today).2.1.no_show_streak
      = u.no_show_streak + 1
    ∧ (if u.no_show_streak + 1 ≥ T ∧ ¬u.is_blocked then
        (Order.mark_no_show o u events (some T) true now today).2.1
          = { u with
                no_show_streak := u.no_show_streak + 1,
                last_no_show_at := some today, is_blocked := true,
                block_source := "auto",
                blocked_reason := (autoBlockReason T).take 200,
                blocked_at := some now, blocked_by := none }
        ∧ (Order.mark_no_show o u events (some T) true now today).2.2
          = events ++ [⟨u.id, "block", "auto", none, (autoBlockReason T).take 200⟩]
      else
        (Order.mark_no_show o u events (some T) true now today).2.1
          = { u with
                no_show_streak := u.no_show_streak + 1,
                last_no_show_at := some today }
        ∧ (Order.mark_no_show o u events (some T) true now today).2.2
          = events) := by
  by_cases hc : u.no_show_streak + 1 ≥ T ∧ ¬u.is_blocked
  · rw [if_pos hc]
    refine ⟨?_, ?_, ?_, ?_⟩ <;>
      simp [Order.mark_no_show, User.block, h, hc]
  · rw [if_neg hc]
    simp only [ge_iff_le, Bool.not_eq_true] at hc
    refine ⟨?_, ?_, ?_, ?_⟩ <;>
      simp [Order.mark_no_show, User.block, h, hc]

/-- C5 witness: a pending order of a student with streak 2 and threshold 3
crosses the threshold: streak becomes 3, the student is auto-blocked with a
null actor, and exactly one block event is appended. -/
theorem C5_auto_block_witness :
    (Order.mark_no_show ⟨1, 0, "pending", "pending", 1, none, none, none⟩
        ⟨0, false, false, false, "", "", none, none, 2, none, none, false, 0, []⟩
        [] (some 3) true 7 1).1
      = { (⟨1, 0, "pending", "pending", 1, none, none, none⟩ : Order) with
            status := "no_show", delivery_status := "undelivered" }
    ∧ (Order.mark_no_show ⟨1, 0, "pending", "pending", 1, none, none, none⟩
        ⟨0, false, false, false, "", "", none, none, 2, none, none, false, 0, []⟩
        [] (some 3) true 7 1).2.1.no_show_streak = 2 + 1
    ∧ (if 2 + 1 ≥ 3 ∧ ¬((false : Bool) = true) then
        (Order.mark_no_show ⟨1, 0, "pending", "pending", 1, none, none, none⟩
          ⟨0, false, false, false, "", "", none, none, 2, none, none, false, 0, []⟩
          [] (some 3) true 7 1).2.1
          = { (⟨0, false, false, false, "", "", none, none, 2, none, none,
                false, 0, []⟩ : User) with
                no_show_streak := 2 + 1, last_no_show_at := some 1,
                is_blocked := true, block_source := "auto",
                blocked_reason := (autoBlockReason 3).take 200,
                blocked_at := some 7, blocked_by := none }
        ∧ (Order.mark_no_show ⟨1, 0, "pending", "pending", 1, none, none, none⟩
            ⟨0, false, false, false, "", "", none, none, 2, none, none, false, 0, []⟩
            [] (some 3) true 7 1).2.2
          = [] ++ [⟨0, "block", "auto", none, (autoBlockReason 3).take 200⟩]
      else
        (Order.mark_no_show ⟨1, 0, "pending", "pending", 1, none, none, none⟩
            ⟨0, false, false, false, "", "", none, none, 2, none, none, false, 0, []⟩
            [] (some 3) true 7 1).2.1
          = { (⟨0, false, false, false, "", "", none, none, 2, none, none,
                false, 0, []⟩ : User) with
                no_show_streak := 2 + 1, last_no_show_at := some 1 }
        ∧ (Order.mark_no_show ⟨1, 0, "pending", "pending", 1, none, none, none⟩
            ⟨0, false, false, false, "", "", none, none, 2, none, none, false, 0, []⟩
            [] (some 3) true 7 1).2.2
          = []) :=
  C5_auto_block_fires_exactly_at_threshold
    ⟨1, 0, "pending", "pending", 1, none, none, none⟩
    ⟨0, false, false, false, "", "", none, none, 2, none, none, false, 0, []⟩
    [] 3 7 1 (by decide)

/-- The allocation loop inspects only as many draws as it has fuel. -/
lemma tokenAllocLoop_take (ex : List (List Nat)) :
    ∀ (n : Nat) (rand : List (List Nat)),
      tokenAllocLoop ex rand n = tokenAllocLoop ex (rand.take n) n := by
  intro n
  induction n with
  | zero => intro rand; cases rand <;> rfl
  | succ n ih =>
    intro rand
    cases rand with
    | nil => rfl
    | cons d rest =>
      rw [List.take_succ_cons]
      cases hmem : ex.contains (_generate_ean13 d) with
      | true =>
        simp only [tokenAllocLoop, hmem, if_pos]
        exact ih rest
      | false =>
        have hnot : _generate_ean13 d ∉ ex := by simpa using hmem
        simp [tokenAllocLoop, hnot]

/-- If every draw the loop can consume collides with an existing token,
the loop exhausts its fuel. -/
lemma tokenAllocLoop_none (ex : List (List Nat)) :
    ∀ (n : Nat) (rand : List (List Nat)), n ≤ rand.length →
      (∀ d12 ∈ rand.take n, _generate_ean13 d12 ∈ ex) →
      tokenAllocLoop ex rand n = none := by
  intro n
  induction n with
  | zero => intro rand _ _; cases rand <;> rfl
  | succ n ih =>
    intro rand hlen hall
    cases rand with
    | nil => simp at hlen
    | cons d rest =>
      have hd : ex.contains (_generate_ean13 d) = true := by
        have := hall d (by simp)
        simpa using this
      simp only [tokenAllocLoop, hd, if_pos]
      refine ih rest (by simpa using hlen) ?_
      intro x hx
      exact hall x (by simp [List.take_succ_cons, hx])

/-- A successful allocation never returns a colliding candidate. -/
lemma tokenAllocLoop_some (ex : List (List Nat)) :
    ∀ (n : Nat) (rand : List (List Nat)) (c : List Nat),
      tokenAllocLoop ex rand n = some c → c ∉ ex := by
  intro n
  induction n with
  | zero => intro rand c h; simp [tokenAllocLoop] at h
  | succ n ih =>
    intro rand c h
    cases rand with
    | nil => simp [tokenAllocLoop] at h
    | cons d rest =>
      cases hmem : ex.contains (_generate_ean13 d) with
      | true =>
        simp only [tokenAllocLoop, hmem, if_pos] at h
        exact ih rest c h
      | false =>
        simp only [tokenAllocLoop, hmem] at h
        simp only [Bool.false_eq_true, if_false, Option.some.injEq] at h
        subst h
        intro hc
        rw [← List.elem_iff] at hc
        simp [List.contains] at hmem
        exact absurd hc (by simpa using hmem)

/-- C9: token allocation is stable and bounded. An order that already has a
token keeps it and is returned unchanged; the outcome depends only on the
first 8 random draws; when an order has no token and all 8 draws collide
with existing tokens, allocation fails with the fatal error; and a
successful allocation assigns a token that does not collide, changing
nothing else on the order. -/
theorem C9_token_allocation_bounded_and_stable :
    (∀ (o : Order) (t : List Nat) (ex rand : List (List Nat)),
      o.pickup_token = some t →
      ensure_pickup_token o ex rand false = .ok o)
    ∧ (∀ (o : Order) (ex rand : List (List Nat)),
      ensure_pickup_token o ex rand false
        = ensure_pickup_token o ex (rand.take 8) false)
    ∧ (∀ (o : Order) (ex rand : List (List Nat)),
      o.pickup_token = none → 8 ≤ rand.length →
      (∀ d12 ∈ rand.take 8, _generate_ean13 d12 ∈ ex) →
      ensure_pickup_token o ex rand false
        = .error "RuntimeError: falha ao alocar pickup_token")
    ∧ (∀ (o o' : Order) (ex rand : List (List Nat)),
      o.pickup_token = none →
      ensure_pickup_token o ex rand false = .ok o' →
      ∃ c, o' = { o with pickup_token := some c } ∧ c ∉ ex) := by
  refine ⟨?_, ?_, ?_, ?_⟩
  · intro o t ex rand h
    simp [ensure_pickup_token, h]
  · intro o ex rand
    unfold ensure_pickup_token
    rw [tokenAllocLoop_take ex 8 rand]
  · intro o ex rand hnone hlen hall
    rw [ensure_pickup_token, tokenAllocLoop_none ex 8 rand hlen hall]
    simp [hnone]
  · intro o o' ex rand hnone hok
    rw [ensure_pickup_token] at hok
    simp only [hnone, Option.isSome_none, Bool.false_and, Bool.false_eq_true,
      if_false] at hok
    cases hloop : tokenAllocLoop ex rand 8 with
    | none => rw [hloop] at hok; exact absurd hok (by simp)
    | some c =>
      rw [hloop] at hok
      simp only [Except.ok.injEq] at hok
      exact ⟨c, hok.symm, tokenAllocLoop_some ex 8 rand c hloop⟩

/-- C9 witness: an order with a token keeps it against any draws, and an
order without a token whose 8 draws all collide gets the fatal error. -/
theorem C9_token_allocation_witness :
    ensure_pickup_token ⟨1, 0, "pending", "pending", 0, none, none,
        some (List.replicate 13 7)⟩ [] [] false
      = .ok ⟨1, 0, "pending", "pending", 0, none, none, some (List.replicate 13 7)⟩
    ∧ ensure_pickup_token ⟨2, 0, "pending", "pending", 0, none, none, none⟩
        [_generate_ean13 (List.replicate 12 0)]
        (List.replicate 8 (List.replicate 12 0)) false
      = .error "RuntimeError: falha ao alocar pickup_token" :=
  ⟨C9_token_allocation_bounded_and_stable.1
      ⟨1, 0, "pending", "pending", 0, none, none, some (List.replicate 13 7)⟩
      (List.replicate 13 7) [] [] rfl,
   C9_token_allocation_bounded_and_stable.2.2.1
      ⟨2, 0, "pending", "pending", 0, none, none, none⟩
      [_generate_ean13 (List.replicate 12 0)]
      (List.replicate 8 (List.replicate 12 0)) rfl (by decide) (by decide)⟩

/-- The scan guard, unfolded to the claim-level formula: the day is an
extra lunch day for one of the user's classes or its weekday bit is set in
the resolved mask, and it is not a calendar closure. -/
lemma lunch_and_open_iff (users : List User) (u : User)
    (closures : List Closure) (d : Int) :
    (is_lunch_day_for_user users u d && !is_closed closures d) = true ↔
      ((hasExtraLunchDay u d = true
        ∨ _user_lunch_mask users u &&& _weekday_bit d ≠ 0)
      ∧ is_closed closures d = false) := by
  unfold is_lunch_day_for_user
  cases hx : hasExtraLunchDay u d <;> cases hc : is_closed closures d <;>
    simp [hx, hc, bne_iff_ne]

/-- Negated form of `lunch_and_open_iff`. -/
lemma lunch_and_open_false_iff (users : List User) (u : User)
    (closures : List Closure) (d : Int) :
    (is_lunch_day_for_user users u d && !is_closed closures d) = false ↔
      ¬ ((hasExtraLunchDay u d = true
        ∨ _user_lunch_mask users u &&& _weekday_bit d ≠ 0)
      ∧ is_closed closures d = false) := by
  rw [← lunch_and_open_iff users u closures d]
  cases is_lunch_day_for_user users u d && !is_closed closures d <;> simp

/-- First-hit characterization of the bounded scan: a `some` result is the
first day in the window passing the guard, and a `none` result means no
day in the window passes it. -/
lemma scanEligible_spec (users : List User) (u : User)
    (closures : List Closure) :
    ∀ (n : Nat) (dia : Int),
      (∀ d : Int, scanEligible users u closures n dia = some d →
        ∃ i : Nat, i < n ∧ d = dia + i
          ∧ (is_lunch_day_for_user users u (dia + i)
              && !is_closed closures (dia + i)) = true
          ∧ ∀ j : Nat, j < i →
            (is_lunch_day_for_user users u (dia + j)
              && !is_closed closures (dia + j)) = false)
      ∧ (scanEligible users u closures n dia = none →
        ∀ i : Nat, i < n →
          (is_lunch_day_for_user users u (dia + i)
            && !is_closed closures (dia + i)) = false) := by
  intro n
  induction n with
  | zero =>
    intro dia
    refine ⟨?_, ?_⟩
    · intro d h
      simp [scanEligible] at h
    · intro _ i hi
      omega
  | succ n ih =>
    intro dia
    refine ⟨?_, ?_⟩
    · intro d h
      rw [scanEligible] at h
      cases hd : (is_lunch_day_for_user users u dia && !is_closed closures dia) with
      | true =>
        rw [hd, if_pos rfl] at h
        refine ⟨0, by omega, ?_, ?_, ?_⟩
        · simpa using (Option.some.injEq _ _ ▸ h :).symm
        · simpa using hd
        · intro j hj
          omega
      | false =>
        rw [hd] at h
        simp only [Bool.false_eq_true, if_false] at h
        obtain ⟨i, hi, hdi, helig, hprev⟩ := (ih (dia + 1)).1 d h
        have hcast : ∀ k : Nat, dia + 1 + (k : Int) = dia + ((k + 1 : Nat) : Int) := by
          intro k
          push_cast
          ring
        refine ⟨i + 1, by omega, ?_, ?_, ?_⟩
        · rw [hdi, hcast i]
        · rw [← hcast i]
          exact helig
        · intro j hj
          match j, hj with
          | 0, _ =>
            simpa using hd
          | k + 1, hj =>
            rw [← hcast k]
            exact hprev k (by omega)
    · intro h i hi
      rw [scanEligible] at h
      cases hd : (is_lunch_day_for_user users u dia && !is_closed closures dia) with
      | true =>
        rw [hd, if_pos rfl] at h
        exact absurd h (by simp)
      | false =>
        rw [hd] at h
        simp only [Bool.false_eq_true, if_false] at h
        have hrest := (ih (dia + 1)).2 h
        match i, hi with
        | 0, _ =>
          simpa using hd
        | k + 1, hi =>
          have hcast : dia + 1 + (k : Int) = dia + ((k + 1 : Nat) : Int) := by
            push_cast
            ring
          rw [← hcast]
          exact hrest k (by omega)

/-- C4: for every user and instant, `next_eligible_service_day` returns the
first date, scanning at most 31 days from the base day — today + 1 when the
local time is strictly before the cutoff, today + 2 otherwise — that is an
extra lunch day for one of the user's classes or has its weekday bit set in
the resolved mask, and is not a calendar closure (exact-date or
annually-recurring match); and when no day of the 31-day window qualifies,
it returns the base day itself. -/
theorem C4_next_eligible_service_day_first_hit (users : List User) (u : User)
    (closures : List Closure) (cutoff : Nat) (today : Int) (nowTime : Nat)
    (base : Int)
    (hbase : base = today + (if nowTime < cutoff then 1 else 2)) :
    (∃ i : Nat, i < 31
      ∧ ((hasExtraLunchDay u (base + i) = true
          ∨ _user_lunch_mask users u &&& _weekday_bit (base + i) ≠ 0)
        ∧ is_closed closures (base + i) = false)
      ∧ (∀ j : Nat, j < i →
        ¬ ((hasExtraLunchDay u (base + j) = true
            ∨ _user_lunch_mask users u &&& _weekday_bit (base + j) ≠ 0)
          ∧ is_closed closures (base + j) = false))
      ∧ next_eligible_service_day users u closures cutoff today nowTime = base + i)
    ∨ ((∀ i : Nat, i < 31 →
        ¬ ((hasExtraLunchDay u (base + i) = true
            ∨ _user_lunch_mask users u &&& _weekday_bit (base + i) ≠ 0)
          ∧ is_closed closures (base + i) = false))
      ∧ next_eligible_service_day users u closures cutoff today nowTime = base) := by
  subst hbase
  cases hscan : scanEligible users u closures 31
      (today + (if nowTime < cutoff then 1 else 2)) with
  | some d =>
    obtain ⟨i, hi, hdi, helig, hprev⟩ :=
      (scanEligible_spec users u closures 31 _).1 d hscan
    left
    refine ⟨i, hi, (lunch_and_open_iff users u closures _).mp helig, ?_, ?_⟩
    · intro j hj
      exact (lunch_and_open_false_iff users u closures _).mp (hprev j hj)
    · simp only [next_eligible_service_day, hscan]
      exact hdi
  | none =>
    right
    refine ⟨?_, ?_⟩
    · intro i hi
      exact (lunch_and_open_false_iff users u closures _).mp
        ((scanEligible_spec users u closures 31 _).2 hscan i hi)
    · simp only [next_eligible_service_day, hscan]

/-- C4 witness: a default-mask user on Tuesday 1970-01-06 (epoch day 5) at
14:00, before the 15:00 cutoff, with no closures: the base day is 6
(Wednesday) and the scan characterization holds there. -/
theorem C4_next_eligible_witness :
    (∃ i : Nat, i < 31
      ∧ ((hasExtraLunchDay ⟨0, false, false, false, "", "", none, none, 0,
            none, none, false, 0, []⟩ (6 + i) = true
          ∨ _user_lunch_mask [] ⟨0, false, false, false, "", "", none, none, 0,
              none, none, false, 0, []⟩ &&& _weekday_bit (6 + i) ≠ 0)
        ∧ is_closed [] (6 + i) = false)
      ∧ (∀ j : Nat, j < i →
        ¬ ((hasExtraLunchDay ⟨0, false, false, false, "", "", none, none, 0,
              none, none, false, 0, []⟩ (6 + j) = true
            ∨ _user_lunch_mask [] ⟨0, false, false, false, "", "", none, none, 0,
                none, none, false, 0, []⟩ &&& _weekday_bit (6 + j) ≠ 0)
          ∧ is_closed [] (6 + j) = false))
      ∧ next_eligible_service_day [] ⟨0, false, false, false, "", "", none, none, 0,
          none, none, false, 0, []⟩ [] defaultCutoffTime 5
          (14 * 3600 * 1000000) = 6 + i)
    ∨ ((∀ i : Nat, i < 31 →
        ¬ ((hasExtraLunchDay ⟨0, false, false, false, "", "", none, none, 0,
              none, none, false, 0, []⟩ (6 + i) = true
            ∨ _user_lunch_mask [] ⟨0, false, false, false, "", "", none, none, 0,
                none, none, false, 0, []⟩ &&& _weekday_bit (6 + i) ≠ 0)
          ∧ is_closed [] (6 + i) = false))
      ∧ next_eligible_service_day [] ⟨0, false, false, false, "", "", none, none, 0,
          none, none, false, 0, []⟩ [] defaultCutoffTime 5
          (14 * 3600 * 1000000) = 6) :=
  C4_next_eligible_service_day_first_hit []
    ⟨0, false, false, false, "", "", none, none, 0, none, none, false, 0, []⟩
    [] defaultCutoffTime 5 (14 * 3600 * 1000000) 6 (by decide)

end Hango
